import Mathlib

/-!
Shallow embedding of `scripts/package_release.py` (AutoVibez Release Asset
Packager).  The script builds ZIP archives, each holding a `metadata.json`
entry (Python `json.dumps(metadata, indent=2)`) and a `README.md` entry
(an f-string template), and writes a static installation guide.  Archives
are modelled as lists of (entry name, entry content) pairs; the filesystem
as an association list of paths to contents plus a list of directories.
-/

namespace AutoVibez

/-- A run of `n` space characters, as produced by Python's
`json.dumps(..., indent=2)` indentation. -/
def spaces (n : Nat) : String :=
  String.mk (List.replicate n ' ')

/-- Python `sep.join(xs)`: the elements of `xs` interleaved with `sep`. -/
def strJoin (sep : String) : List String → String
  | [] => ""
  | [x] => x
  | x :: y :: xs => x ++ sep ++ strJoin sep (y :: xs)

/-- Python `str.title()` restricted to ASCII casing: a letter that follows a
letter is lowercased, any other letter is uppercased. -/
def pyTitle (s : String) : String :=
  (s.data.foldl
    (fun acc c =>
      (acc.1.push (if acc.2 then c.toLower else c.toUpper), c.isAlpha))
    (("" : String), false)).1

/-- Lowercase hexadecimal digit for `n < 16`. -/
def hexDigit (n : Nat) : Char :=
  if n < 10 then Char.ofNat (48 + n) else Char.ofNat (87 + n)

/-- Four lowercase hex digits of `n % 65536`. -/
def hex4 (n : Nat) : String :=
  String.mk [hexDigit (n / 4096 % 16), hexDigit (n / 256 % 16),
             hexDigit (n / 16 % 16), hexDigit (n % 16)]

/-- A JSON `\uXXXX` escape. -/
def uEsc (n : Nat) : String :=
  "\\u" ++ hex4 n

/-- How CPython's `json` encoder (default `ensure_ascii=True`) renders one
character inside a JSON string literal: `"` and `\` are backslash-escaped,
control characters use the short escapes or `\uXXXX`, printable ASCII is kept,
and everything above `0x7e` is `\uXXXX`-escaped (with a surrogate pair beyond
the basic multilingual plane). -/
def jsonEscapeChar (c : Char) : String :=
  if c = '"' then "\\\""
  else if c = '\\' then "\\\\"
  else if c = '\x08' then "\\b"
  else if c = '\x0c' then "\\f"
  else if c = '\n' then "\\n"
  else if c = '\r' then "\\r"
  else if c = '\t' then "\\t"
  else if c.toNat < 0x20 then uEsc c.toNat
  else if c.toNat ≤ 0x7e then String.mk [c]
  else if c.toNat ≤ 0xffff then uEsc c.toNat
  else uEsc (0xd800 + (c.toNat - 0x10000) / 0x400) ++
       uEsc (0xdc00 + (c.toNat - 0x10000) % 0x400)

/-- JSON escaping of a whole string, character by character. -/
def jsonEscapeString (s : String) : String :=
  String.join (s.data.map jsonEscapeChar)

/-- JSON values, covering the shapes the packager writes: strings, arrays
and objects (an object is its key/value list in insertion order, as in a
Python dict). -/
inductive Json where
  | str (s : String)
  | arr (items : List Json)
  | obj (fields : List (String × Json))

/-- A JSON string literal: the escaped text in double quotes. -/
def Json.quote (s : String) : String :=
  "\"" ++ jsonEscapeString s ++ "\""

mutual

/-- Python `json.dumps(·, indent=2)` at nesting level `lvl`: objects and
arrays open on their own line, members are indented two spaces per level and
separated by `\x2c\n`, and the closing bracket is indented at the parent
level.  Empty containers collapse to `[]` and `\x7b\x7d`. -/
def Json.dumpsAt : Nat → Json → String
  | _, .str s => Json.quote s
  | _, .arr [] => "[]"
  | lvl, .arr (x :: xs) =>
      "[\n" ++ strJoin ",\n" (Json.dumpsItems (lvl + 1) (x :: xs)) ++
        "\n" ++ spaces (2 * lvl) ++ "]"
  | _, .obj [] => "\x7b\x7d"
  | lvl, .obj (f :: fs) =>
      "\x7b\n" ++ strJoin ",\n" (Json.dumpsEntries (lvl + 1) (f :: fs)) ++
        "\n" ++ spaces (2 * lvl) ++ "\x7d"

/-- The rendered, indented items of a JSON array at level `lvl`. -/
def Json.dumpsItems : Nat → List Json → List String
  | _, [] => []
  | lvl, x :: xs => (spaces (2 * lvl) ++ Json.dumpsAt lvl x) :: Json.dumpsItems lvl xs

/-- The rendered, indented `"key": value` members of a JSON object at
level `lvl`. -/
def Json.dumpsEntries : Nat → List (String × Json) → List String
  | _, [] => []
  | lvl, (k, v) :: fs =>
      (spaces (2 * lvl) ++ Json.quote k ++ ": " ++ Json.dumpsAt lvl v) ::
        Json.dumpsEntries lvl fs

end

/-- Python `json.dumps(j, indent=2)`. -/
def Json.dumps (j : Json) : String :=
  Json.dumpsAt 0 j

/-- The key list of a JSON object, in insertion order. -/
def Json.keys : Json → List String
  | .obj fields => fields.map Prod.fst
  | _ => []

/-- The value stored under key `k` of a JSON object, if any. -/
def Json.lookup : Json → String → Option Json
  | .obj fields, k => (fields.find? (fun kv => kv.1 == k)).map Prod.snd
  | _, _ => none

/-- The string value stored under key `k` of a JSON object, if the key is
present and its value is a string. -/
def Json.lookupStr (j : Json) (k : String) : Option String :=
  match j.lookup k with
  | some (.str s) => some s
  | _ => none

/-- A ZIP archive as the packager sees it: the ordered list of
(entry name, entry content) pairs passed to `zipf.writestr`. -/
structure Archive where
  entries : List (String × String)

/-- The content of the archive entry called `name`, if present. -/
def Archive.find (a : Archive) (name : String) : Option String :=
  (a.entries.find? (fun e => e.1 == name)).map Prod.snd

/-- The packager object: `ReleaseAssetPackager.__init__` stores the output
directory path. -/
structure ReleaseAssetPackager where
  output_dir : String

/-- Python `pathlib`'s `/` on paths, in POSIX form. -/
def pathJoin (dir file : String) : String :=
  dir ++ "/" ++ file

/-- The metadata dict built by `create_preset_package` (lines 25-32 of the
script), in insertion order. -/
def presetMetadata (name source_url description ts : String) : Json :=
  .obj [("name", .str ("AutoVibez Presets - " ++ pyTitle name)),
        ("description", .str description),
        ("type", .str "presets"),
        ("source_url", .str source_url),
        ("created", .str ts),
        ("version", .str "1.0.0")]

/-- The README f-string of `create_preset_package` (lines 40-72). -/
def presetReadme (name source_url description ts : String) : String :=
  "# AutoVibez Presets - " ++ pyTitle name ++ "\n\n" ++ description ++
  "\n\n## Installation\n\n1. Extract this ZIP file\n2. Copy the .milk files to your AutoVibez presets directory\n3. Restart AutoVibez\n\n## Directory Locations\n\n**Windows:**\n```\n%APPDATA%\\autovibez\\presets\\\n```\n\n**macOS:**\n```\n~/Library/Application Support/autovibez/presets/\n```\n\n**Linux:**\n```\n~/.local/share/autovibez/presets/\n```\n\n## Source\n\nDownloaded from: " ++
  source_url ++ "\n\nGenerated on: " ++ ts ++ "\n"

/-- The archive written by `create_preset_package`: `metadata.json` then
`README.md`. -/
def presetArchive (name source_url description ts : String) : Archive :=
  ⟨[("metadata.json", Json.dumps (presetMetadata name source_url description ts)),
    ("README.md", presetReadme name source_url description ts)]⟩

/-- `create_preset_package` (pure part): the returned path and the archive
written there.  `ts` is the value of `datetime.now().isoformat()` read during
the call. -/
def create_preset_package (p : ReleaseAssetPackager)
    (name source_url description ts : String) : String × Archive :=
  (pathJoin p.output_dir ("autovibez-presets-" ++ name ++ ".zip"),
   presetArchive name source_url description ts)

/-- The metadata dict built by `create_texture_package` (lines 83-90). -/
def textureMetadata (name source_url description ts : String) : Json :=
  .obj [("name", .str ("AutoVibez Textures - " ++ pyTitle name)),
        ("description", .str description),
        ("type", .str "textures"),
        ("source_url", .str source_url),
        ("created", .str ts),
        ("version", .str "1.0.0")]

/-- The README f-string of `create_texture_package` (lines 98-137). -/
def textureReadme (name source_url description ts : String) : String :=
  "# AutoVibez Textures - " ++ pyTitle name ++ "\n\n" ++ description ++
  "\n\n## Installation\n\n1. Extract this ZIP file\n2. Copy the texture files to your AutoVibez textures directory\n3. Restart AutoVibez\n\n## Directory Locations\n\n**Windows:**\n```\n%APPDATA%\\autovibez\\textures\\\n```\n\n**macOS:**\n```\n~/Library/Application Support/autovibez/textures/\n```\n\n**Linux:**\n```\n~/.local/share/autovibez/textures/\n```\n\n## Supported Formats\n\n- PNG (recommended)\n- JPG/JPEG\n- BMP\n- TGA\n\n## Source\n\nDownloaded from: " ++
  source_url ++ "\n\nGenerated on: " ++ ts ++ "\n"

/-- The archive written by `create_texture_package`. -/
def textureArchive (name source_url description ts : String) : Archive :=
  ⟨[("metadata.json", Json.dumps (textureMetadata name source_url description ts)),
    ("README.md", textureReadme name source_url description ts)]⟩

/-- `create_texture_package` (pure part): returned path and archive. -/
def create_texture_package (p : ReleaseAssetPackager)
    (name source_url description ts : String) : String × Archive :=
  (pathJoin p.output_dir ("autovibez-textures-" ++ name ++ ".zip"),
   textureArchive name source_url description ts)

/-- The metadata dict built by `create_combined_package` (lines 148-155):
note that its `type` field is the `name` argument itself and that it has a
`packages` list where the other two have `source_url`. -/
def combinedMetadata (packages : List String) (name description ts : String) : Json :=
  .obj [("name", .str ("AutoVibez " ++ pyTitle name ++ " - Complete")),
        ("description", .str description),
        ("type", .str name),
        ("packages", .arr (packages.map Json.str)),
        ("created", .str ts),
        ("version", .str "1.0.0")]

/-- The README f-string of `create_combined_package` (lines 163-196); the
contents section is `"\n".join("- " + pkg for pkg in packages)`. -/
def combinedReadme (packages : List String) (name description ts : String) : String :=
  "# AutoVibez " ++ pyTitle name ++ " - Complete Package\n\n" ++ description ++
  "\n\n## Contents\n\nThis package contains:\n" ++
  strJoin "\n" (packages.map (fun pkg => "- " ++ pkg)) ++
  "\n\n## Installation\n\n1. Extract this ZIP file\n2. Copy the files to your AutoVibez " ++
  name ++
  " directory\n3. Restart AutoVibez\n\n## Directory Locations\n\n**Windows:**\n```\n%APPDATA%\\autovibez\\" ++
  name ++ "\\\n```\n\n**macOS:**\n```\n~/Library/Application Support/autovibez/" ++
  name ++ "/\n```\n\n**Linux:**\n```\n~/.local/share/autovibez/" ++
  name ++ "/\n```\n\nGenerated on: " ++ ts ++ "\n"

/-- The archive written by `create_combined_package`. -/
def combinedArchive (packages : List String) (name description ts : String) : Archive :=
  ⟨[("metadata.json", Json.dumps (combinedMetadata packages name description ts)),
    ("README.md", combinedReadme packages name description ts)]⟩

/-- `create_combined_package` (pure part): returned path and archive. -/
def create_combined_package (p : ReleaseAssetPackager)
    (packages : List String) (name description ts : String) : String × Archive :=
  (pathJoin p.output_dir ("autovibez-" ++ name ++ "-complete.zip"),
   combinedArchive packages name description ts)

/-- The static text of `INSTALL_ASSETS.md` written by
`create_installation_guide` (lines 205-302 of the script). -/
def installGuideContent : String :=
  "# AutoVibez Asset Installation Guide\n\n## 🎵 Quick Start\n\n1. **Download Assets**: Get the preset and texture packages from the releases page\n2. **Extract Files**: Extract the ZIP files to your AutoVibez assets directory\n3. **Restart AutoVibez**: The app will automatically detect the new assets\n\n## 📁 Asset Locations\n\n### Windows\n```\n%APPDATA%\\autovibez\\presets\\\n%APPDATA%\\autovibez\\textures\\\n```\n\n### macOS\n```\n~/Library/Application Support/autovibez/presets/\n~/Library/Application Support/autovibez/textures/\n```\n\n### Linux\n```\n~/.local/share/autovibez/presets/\n~/.local/share/autovibez/textures/\n```\n\n" ++
  "## 📦 Available Packages\n\n### Preset Packages\n- **autovibez-presets-cream-of-the-crop.zip**: ~10,000 curated presets\n- **autovibez-presets-milkdrop-original.zip**: Classic Milkdrop presets\n- **autovibez-presets-complete.zip**: All presets combined\n\n### Texture Packages\n- **autovibez-textures-milkdrop-textures.zip**: Essential textures\n- **autovibez-textures-complete.zip**: All textures combined\n\n" ++
  "## 🚀 Installation Steps\n\n### Method 1: Automatic Installation\n1. Download the asset packages from the releases page\n2. Extract ZIP files to a temporary location\n3. Copy presets to your presets directory\n4. Copy textures to your textures directory\n5. Restart AutoVibez\n\n### Method 2: Manual Installation\n1. Create the assets directories if they don\x27t exist\n2. Download and extract the asset packages\n3. Copy .milk files to the presets directory\n4. Copy texture files to the textures directory\n5. Restart AutoVibez\n\n" ++
  "## ✅ Verification\n\nAfter installation, AutoVibez will show:\n- Available presets in the help overlay (press H)\n- New visual effects during playback\n- Enhanced texture quality in presets\n\n## 🆘 Troubleshooting\n\n### No New Effects\n- Restart AutoVibez after installing assets\n- Check that files are in the correct directories\n- Verify file permissions\n\n### Missing Textures\n- Ensure textures are in the correct directory\n- Check that texture files are valid image formats\n- Restart AutoVibez after adding textures\n\n### Corrupted Files\n- Re-download the asset packages\n- Check file integrity with checksums\n- Try extracting with different tools\n\n" ++
  "## 📊 Package Information\n\nEach package contains:\n- **Presets**: .milk files for visual effects\n- **Textures**: PNG, JPG, BMP, TGA image files\n- **Metadata**: Package information and source details\n- **README**: Installation and usage instructions\n\n## 🔗 Sources\n\nAll assets are sourced from the ProjectM community:\n- [Cream of the Crop Presets](https://github.com/projectM-visualizer/presets-cream-of-the-crop)\n- [Milkdrop Original Presets](https://github.com/projectM-visualizer/presets-milkdrop-original)\n- [Milkdrop Texture Pack](https://github.com/projectM-visualizer/presets-milkdrop-texture-pack)\n\n## 📄 License\n\nAssets are provided under their respective licenses. Please refer to the source repositories for license details.\n"

/-- `create_installation_guide` (pure part): the returned path and the text
written there. -/
def create_installation_guide (p : ReleaseAssetPackager) : String × String :=
  (pathJoin p.output_dir "INSTALL_ASSETS.md", installGuideContent)

/-- What a path on disk can hold in this model: a ZIP archive or plain
text. -/
inductive FileContent where
  | zip (archive : Archive)
  | text (s : String)

/-- The filesystem as the script touches it: the set of directories that
exist and an association list from paths to file contents (most recent
write first). -/
structure FileSystem where
  dirs : List String
  files : List (String × FileContent)

/-- The content stored at `path`, if any. -/
def FileSystem.read (fs : FileSystem) (path : String) : Option FileContent :=
  (fs.files.find? (fun e => e.1 == path)).map Prod.snd

/-- Writing `c` at `path` (an overwriting create, as `zipfile.ZipFile(path,
'w')` and `open(path, 'w')` both are). -/
def FileSystem.write (fs : FileSystem) (path : String) (c : FileContent) : FileSystem :=
  ⟨fs.dirs, (path, c) :: fs.files⟩

/-- Python `Path.mkdir(exist_ok=True)`: create the directory unless it is
already there. -/
def FileSystem.mkdirIfAbsent (fs : FileSystem) (d : String) : FileSystem :=
  if d ∈ fs.dirs then fs else ⟨d :: fs.dirs, fs.files⟩

/-- `ReleaseAssetPackager.__init__`: record the output directory and create
it if absent (lines 15-17). -/
def ReleaseAssetPackager.init (output_dir : String) (fs : FileSystem) :
    ReleaseAssetPackager × FileSystem :=
  (⟨output_dir⟩, fs.mkdirIfAbsent output_dir)

/-- `create_preset_package` acting on the filesystem: one write of the
archive at the returned path. -/
def create_preset_packageFS (p : ReleaseAssetPackager)
    (name source_url description ts : String) (fs : FileSystem) :
    String × FileSystem :=
  ((create_preset_package p name source_url description ts).1,
   fs.write (create_preset_package p name source_url description ts).1
     (.zip (presetArchive name source_url description ts)))

/-- `create_texture_package` acting on the filesystem. -/
def create_texture_packageFS (p : ReleaseAssetPackager)
    (name source_url description ts : String) (fs : FileSystem) :
    String × FileSystem :=
  ((create_texture_package p name source_url description ts).1,
   fs.write (create_texture_package p name source_url description ts).1
     (.zip (textureArchive name source_url description ts)))

/-- `create_combined_package` acting on the filesystem. -/
def create_combined_packageFS (p : ReleaseAssetPackager)
    (packages : List String) (name description ts : String) (fs : FileSystem) :
    String × FileSystem :=
  ((create_combined_package p packages name description ts).1,
   fs.write (create_combined_package p packages name description ts).1
     (.zip (combinedArchive packages name description ts)))

/-- `create_installation_guide` acting on the filesystem. -/
def create_installation_guideFS (p : ReleaseAssetPackager) (fs : FileSystem) :
    String × FileSystem :=
  ((create_installation_guide p).1,
   fs.write (create_installation_guide p).1 (.text installGuideContent))

/-- `create_preset_package` with a fallible write primitive `w` (the OS's
disposition for each attempted write).  The method body has no try/except,
so the write's error, if any, is returned unchanged; otherwise the path is
returned. -/
def create_preset_packageExc (w : String → FileContent → Except String Unit)
    (p : ReleaseAssetPackager) (name source_url description ts : String) :
    Except String String :=
  match w (create_preset_package p name source_url description ts).1
          (.zip (presetArchive name source_url description ts)) with
  | .ok _ => .ok (create_preset_package p name source_url description ts).1
  | .error e => .error e

/-- `create_texture_package` with a fallible write primitive. -/
def create_texture_packageExc (w : String → FileContent → Except String Unit)
    (p : ReleaseAssetPackager) (name source_url description ts : String) :
    Except String String :=
  match w (create_texture_package p name source_url description ts).1
          (.zip (textureArchive name source_url description ts)) with
  | .ok _ => .ok (create_texture_package p name source_url description ts).1
  | .error e => .error e

/-- `create_combined_package` with a fallible write primitive. -/
def create_combined_packageExc (w : String → FileContent → Except String Unit)
    (p : ReleaseAssetPackager) (packages : List String)
    (name description ts : String) : Except String String :=
  match w (create_combined_package p packages name description ts).1
          (.zip (combinedArchive packages name description ts)) with
  | .ok _ => .ok (create_combined_package p packages name description ts).1
  | .error e => .error e

/-- `create_installation_guide` with a fallible write primitive. -/
def create_installation_guideExc (w : String → FileContent → Except String Unit)
    (p : ReleaseAssetPackager) : Except String String :=
  match w (create_installation_guide p).1 (.text installGuideContent) with
  | .ok _ => .ok (create_installation_guide p).1
  | .error e => .error e

/-! Helper lemmas about the filesystem model and non-empty strings. -/

/-- Reading back the path just written yields the written content. -/
theorem FileSystem.read_write_self (fs : FileSystem) (path : String) (c : FileContent) :
    (fs.write path c).read path = some c := by
  simp [FileSystem.read, FileSystem.write]

/-- A write leaves every other path unchanged. -/
theorem FileSystem.read_write_other (fs : FileSystem) (path : String) (c : FileContent)
    (q : String) (h : q ≠ path) : (fs.write path c).read q = fs.read q := by
  simp [FileSystem.read, FileSystem.write, Ne.symm h]

/-- `mkdir(exist_ok=True)` touches no file. -/
theorem FileSystem.mkdirIfAbsent_files (fs : FileSystem) (d : String) :
    (fs.mkdirIfAbsent d).files = fs.files := by
  unfold FileSystem.mkdirIfAbsent
  split <;> rfl

/-- After `mkdir(exist_ok=True)` the directory exists. -/
theorem FileSystem.mem_mkdirIfAbsent (fs : FileSystem) (d : String) :
    d ∈ (fs.mkdirIfAbsent d).dirs := by
  unfold FileSystem.mkdirIfAbsent
  split
  · assumption
  · exact List.mem_cons_self ..

/-- `mkdir(exist_ok=True)` on an existing directory is a no-op. -/
theorem FileSystem.mkdirIfAbsent_of_mem (fs : FileSystem) (d : String) (h : d ∈ fs.dirs) :
    fs.mkdirIfAbsent d = fs := by
  unfold FileSystem.mkdirIfAbsent
  simp [h]

/-- A concatenation whose left part is non-empty is non-empty. -/
theorem append_ne_empty_of_left (a b : String) (h : a ≠ "") : a ++ b ≠ "" := by
  intro hab
  apply h
  apply String.ext
  have hd := congrArg String.data hab
  rw [String.data_append] at hd
  exact (List.append_eq_nil.mp hd).1

/-- Claim C1 is false as stated: at a concrete input, the archive produced by
`create_combined_package` holds two entries, not three. -/
theorem c1_counterexample :
    ¬ ((create_combined_package ⟨"release-assets"⟩
          ["Cream of the Crop", "Milkdrop Original"] "presets"
          "Complete preset collection with all available presets"
          "2024-01-01T00:00:00").2.entries.length = 3) := by
  intro h
  rw [show (create_combined_package ⟨"release-assets"⟩
        ["Cream of the Crop", "Milkdrop Original"] "presets"
        "Complete preset collection with all available presets"
        "2024-01-01T00:00:00").2.entries.length = 2 from rfl] at h
  exact absurd h (by decide)

/-- Claim C1 (amended): for every name, source URL, description and clock
reading, the archives produced by `create_preset_package` and
`create_texture_package` contain exactly two entries, and the archive
produced by `create_combined_package` also contains exactly two entries (its
list of constituent package names is embedded in the metadata entry, not
stored as a third entry). -/
theorem c1_amended (p : ReleaseAssetPackager) (n u d ts : String) (pkgs : List String) :
    (create_preset_package p n u d ts).2.entries.length = 2 ∧
    (create_texture_package p n u d ts).2.entries.length = 2 ∧
    (create_combined_package p pkgs n d ts).2.entries.length = 2 :=
  ⟨rfl, rfl, rfl⟩

/-- Claim C2: for every name, source URL, description and clock reading, the
`metadata.json` entry of the archive produced by `create_preset_package` or
`create_texture_package` is the `json.dumps` serialization of a JSON object
whose keys are exactly `name`, `description`, `type`, `source_url`,
`created`, `version`. -/
theorem c2_metadata_keys (p : ReleaseAssetPackager) (n u d ts : String) :
    (∃ j : Json, (create_preset_package p n u d ts).2.find "metadata.json"
        = some (Json.dumps j) ∧
        j.keys = ["name", "description", "type", "source_url", "created", "version"]) ∧
    (∃ j : Json, (create_texture_package p n u d ts).2.find "metadata.json"
        = some (Json.dumps j) ∧
        j.keys = ["name", "description", "type", "source_url", "created", "version"]) :=
  ⟨⟨presetMetadata n u d ts, rfl, rfl⟩, ⟨textureMetadata n u d ts, rfl, rfl⟩⟩

/-- Claim C4 is false as stated: `create_combined_package` stores its `name`
argument as the metadata `type`, so a run with name `custom` writes a
descriptor whose `type` is neither `presets` nor `textures` nor `combined`. -/
theorem c4_counterexample :
    (create_combined_package ⟨"release-assets"⟩ ["Cream of the Crop"] "custom"
        "A bundle" "2024-01-01T00:00:00").2.find "metadata.json"
      = some (Json.dumps (combinedMetadata ["Cream of the Crop"] "custom"
          "A bundle" "2024-01-01T00:00:00")) ∧
    ¬ ((combinedMetadata ["Cream of the Crop"] "custom" "A bundle"
          "2024-01-01T00:00:00").lookupStr "type" = some "presets" ∨
       (combinedMetadata ["Cream of the Crop"] "custom" "A bundle"
          "2024-01-01T00:00:00").lookupStr "type" = some "textures" ∨
       (combinedMetadata ["Cream of the Crop"] "custom" "A bundle"
          "2024-01-01T00:00:00").lookupStr "type" = some "combined") :=
  ⟨rfl, by decide⟩

/-- Claim C4 (amended): the `type` field written by `create_preset_package`
is `presets` and the one written by `create_texture_package` is `textures`;
the `type` field written by `create_combined_package` is its `name` argument
(which the script's main routine passes as `presets` or `textures`, never
`combined`). -/
theorem c4_amended (n u d ts : String) (pkgs : List String) :
    (presetMetadata n u d ts).lookupStr "type" = some "presets" ∧
    (textureMetadata n u d ts).lookupStr "type" = some "textures" ∧
    (combinedMetadata pkgs n d ts).lookupStr "type" = some n :=
  ⟨rfl, rfl, rfl⟩

/-- Claim C9: combined metadata has a `packages` key holding exactly the
given list and no `source_url` key, while preset and texture metadata have a
`source_url` key and no `packages` key; each is what the corresponding
operation serializes into its archive. -/
theorem c9_metadata_shape (p : ReleaseAssetPackager) (n u d ts : String)
    (pkgs : List String) :
    (create_combined_package p pkgs n d ts).2.find "metadata.json"
        = some (Json.dumps (combinedMetadata pkgs n d ts)) ∧
    (combinedMetadata pkgs n d ts).lookup "packages" = some (.arr (pkgs.map Json.str)) ∧
    (combinedMetadata pkgs n d ts).lookup "source_url" = none ∧
    (create_preset_package p n u d ts).2.find "metadata.json"
        = some (Json.dumps (presetMetadata n u d ts)) ∧
    (presetMetadata n u d ts).lookup "source_url" = some (.str u) ∧
    (presetMetadata n u d ts).lookup "packages" = none ∧
    (create_texture_package p n u d ts).2.find "metadata.json"
        = some (Json.dumps (textureMetadata n u d ts)) ∧
    (textureMetadata n u d ts).lookup "source_url" = some (.str u) ∧
    (textureMetadata n u d ts).lookup "packages" = none :=
  ⟨rfl, rfl, rfl, rfl, rfl, rfl, rfl, rfl, rfl⟩

/-- Claim C10: each returned archive path is the output directory joined
with a filename depending only on the operation and the name, and the
filename schemes collide: a combined package named `presets` and a preset
package named `complete` land on the same path. -/
theorem c10_archive_paths (p : ReleaseAssetPackager) (n u d ts u2 d2 ts2 : String)
    (pkgs : List String) :
    (create_preset_package p n u d ts).1
        = pathJoin p.output_dir ("autovibez-presets-" ++ n ++ ".zip") ∧
    (create_texture_package p n u d ts).1
        = pathJoin p.output_dir ("autovibez-textures-" ++ n ++ ".zip") ∧
    (create_combined_package p pkgs n d ts).1
        = pathJoin p.output_dir ("autovibez-" ++ n ++ "-complete.zip") ∧
    (create_combined_package p pkgs "presets" d ts).1
        = (create_preset_package p "complete" u2 d2 ts2).1 := by
  refine ⟨rfl, rfl, rfl, ?_⟩
  show pathJoin p.output_dir ("autovibez-" ++ "presets" ++ "-complete.zip")
      = pathJoin p.output_dir ("autovibez-presets-" ++ "complete" ++ ".zip")
  rfl

/-- Claim C5: each packaging operation writes exactly one file, at the path
it returns, and leaves every other path and the directory list unchanged;
packager construction creates the output directory if absent (a no-op when
it already exists) and touches no file. -/
theorem c5_frame (p : ReleaseAssetPackager) (fs : FileSystem)
    (n u d ts od : String) (pkgs : List String) :
    ((create_preset_packageFS p n u d ts fs).2.read
          (create_preset_packageFS p n u d ts fs).1
        = some (.zip (presetArchive n u d ts)) ∧
      (∀ q, q ≠ (create_preset_packageFS p n u d ts fs).1 →
        (create_preset_packageFS p n u d ts fs).2.read q = fs.read q) ∧
      (create_preset_packageFS p n u d ts fs).2.dirs = fs.dirs) ∧
    ((create_texture_packageFS p n u d ts fs).2.read
          (create_texture_packageFS p n u d ts fs).1
        = some (.zip (textureArchive n u d ts)) ∧
      (∀ q, q ≠ (create_texture_packageFS p n u d ts fs).1 →
        (create_texture_packageFS p n u d ts fs).2.read q = fs.read q) ∧
      (create_texture_packageFS p n u d ts fs).2.dirs = fs.dirs) ∧
    ((create_combined_packageFS p pkgs n d ts fs).2.read
          (create_combined_packageFS p pkgs n d ts fs).1
        = some (.zip (combinedArchive pkgs n d ts)) ∧
      (∀ q, q ≠ (create_combined_packageFS p pkgs n d ts fs).1 →
        (create_combined_packageFS p pkgs n d ts fs).2.read q = fs.read q) ∧
      (create_combined_packageFS p pkgs n d ts fs).2.dirs = fs.dirs) ∧
    ((ReleaseAssetPackager.init od fs).2.files = fs.files ∧
      od ∈ (ReleaseAssetPackager.init od fs).2.dirs ∧
      (od ∈ fs.dirs → (ReleaseAssetPackager.init od fs).2 = fs)) :=
  ⟨⟨FileSystem.read_write_self .., fun _ h => FileSystem.read_write_other _ _ _ _ h, rfl⟩,
   ⟨FileSystem.read_write_self .., fun _ h => FileSystem.read_write_other _ _ _ _ h, rfl⟩,
   ⟨FileSystem.read_write_self .., fun _ h => FileSystem.read_write_other _ _ _ _ h, rfl⟩,
   FileSystem.mkdirIfAbsent_files .., FileSystem.mem_mkdirIfAbsent ..,
   fun h => FileSystem.mkdirIfAbsent_of_mem _ _ h⟩

/-- Witness for C5 at a concrete input: an unrelated path is untouched by a
preset-package run, and constructing the packager over an existing output
directory changes nothing. -/
theorem c5_frame_witness :
    (create_preset_packageFS ⟨"release-assets"⟩ "n1" "u1" "d1" "t1"
        ⟨["release-assets"], []⟩).2.read "other.txt"
      = FileSystem.read ⟨["release-assets"], []⟩ "other.txt" ∧
    (ReleaseAssetPackager.init "release-assets" ⟨["release-assets"], []⟩).2
      = (⟨["release-assets"], []⟩ : FileSystem) :=
  ⟨(c5_frame ⟨"release-assets"⟩ ⟨["release-assets"], []⟩ "n1" "u1" "d1" "t1"
      "release-assets" []).1.2.1 "other.txt" (by decide),
   (c5_frame ⟨"release-assets"⟩ ⟨["release-assets"], []⟩ "n1" "u1" "d1" "t1"
      "release-assets" []).2.2.2.2.2 (by decide)⟩

/-- Claim C6: `create_installation_guide` always writes `INSTALL_ASSETS.md`
into the output directory, with non-empty content, and returns that path. -/
theorem c6_installation_guide (p : ReleaseAssetPackager) (fs : FileSystem) :
    (create_installation_guideFS p fs).1 = pathJoin p.output_dir "INSTALL_ASSETS.md" ∧
    (create_installation_guideFS p fs).2.read (pathJoin p.output_dir "INSTALL_ASSETS.md")
      = some (.text installGuideContent) ∧
    installGuideContent ≠ "" := by
  refine ⟨rfl, FileSystem.read_write_self .., ?_⟩
  unfold installGuideContent
  repeat apply append_ne_empty_of_left
  decide

/-- Claim C7: the `README.md` entry of every archive produced by the three
packaging operations is non-empty, for every input, empty strings
included. -/
theorem c7_readme_nonempty (p : ReleaseAssetPackager) (n u d ts : String)
    (pkgs : List String) :
    (∃ r, (create_preset_package p n u d ts).2.find "README.md" = some r ∧ r ≠ "") ∧
    (∃ r, (create_texture_package p n u d ts).2.find "README.md" = some r ∧ r ≠ "") ∧
    (∃ r, (create_combined_package p pkgs n d ts).2.find "README.md" = some r ∧ r ≠ "") := by
  refine ⟨⟨_, rfl, ?_⟩, ⟨_, rfl, ?_⟩, ⟨_, rfl, ?_⟩⟩
  · unfold presetReadme
    repeat apply append_ne_empty_of_left
    decide
  · unfold textureReadme
    repeat apply append_ne_empty_of_left
    decide
  · unfold combinedReadme
    repeat apply append_ne_empty_of_left
    decide

/-- Claim C8: the packaging operations validate nothing and raise nothing of
their own: whenever the underlying write succeeds they return the archive
path, for arbitrary name, source URL, description and clock strings, and
whenever the underlying write fails the failure is returned unchanged (the
script contains no try/except). -/
theorem c8_error_propagation (w : String → FileContent → Except String Unit)
    (p : ReleaseAssetPackager) (n u d ts : String) (pkgs : List String) (e : String) :
    (w (create_preset_package p n u d ts).1 (.zip (presetArchive n u d ts)) = .ok () →
      create_preset_packageExc w p n u d ts = .ok (create_preset_package p n u d ts).1) ∧
    (w (create_preset_package p n u d ts).1 (.zip (presetArchive n u d ts)) = .error e →
      create_preset_packageExc w p n u d ts = .error e) ∧
    (w (create_texture_package p n u d ts).1 (.zip (textureArchive n u d ts)) = .ok () →
      create_texture_packageExc w p n u d ts = .ok (create_texture_package p n u d ts).1) ∧
    (w (create_texture_package p n u d ts).1 (.zip (textureArchive n u d ts)) = .error e →
      create_texture_packageExc w p n u d ts = .error e) ∧
    (w (create_combined_package p pkgs n d ts).1 (.zip (combinedArchive pkgs n d ts)) = .ok () →
      create_combined_packageExc w p pkgs n d ts
        = .ok (create_combined_package p pkgs n d ts).1) ∧
    (w (create_combined_package p pkgs n d ts).1 (.zip (combinedArchive pkgs n d ts)) = .error e →
      create_combined_packageExc w p pkgs n d ts = .error e) ∧
    (w (create_installation_guide p).1 (.text installGuideContent) = .ok () →
      create_installation_guideExc w p = .ok (create_installation_guide p).1) ∧
    (w (create_installation_guide p).1 (.text installGuideContent) = .error e →
      create_installation_guideExc w p = .error e) := by
  refine ⟨fun h => ?_, fun h => ?_, fun h => ?_, fun h => ?_,
          fun h => ?_, fun h => ?_, fun h => ?_, fun h => ?_⟩ <;>
    first
      | (unfold create_preset_packageExc; rw [h])
      | (unfold create_texture_packageExc; rw [h])
      | (unfold create_combined_packageExc; rw [h])
      | (unfold create_installation_guideExc; rw [h])

/-- Witness for C8 at a concrete input: with a succeeding write the preset
operation returns the path, and with a failing write it returns that very
failure. -/
theorem c8_error_propagation_witness :
    create_preset_packageExc (fun _ _ => .ok ()) ⟨"release-assets"⟩ "n1" "u1" "d1" "t1"
      = .ok (create_preset_package ⟨"release-assets"⟩ "n1" "u1" "d1" "t1").1 ∧
    create_preset_packageExc (fun _ _ => .error "disk full") ⟨"release-assets"⟩
        "n1" "u1" "d1" "t1"
      = .error "disk full" :=
  ⟨(c8_error_propagation (fun _ _ => .ok ()) ⟨"release-assets"⟩ "n1" "u1" "d1" "t1"
      [] "disk full").1 rfl,
   (c8_error_propagation (fun _ _ => .error "disk full") ⟨"release-assets"⟩
      "n1" "u1" "d1" "t1" [] "disk full").2.1 rfl⟩

/-! Timestamp-locality: every byte of each archive entry other than the one
occurrence of the clock reading is a function of the other inputs alone.
The `...Pre` definitions name the text emitted before the timestamp. -/

/-- The serialized preset metadata up to (and including) the opening quote
of the `created` value. -/
def presetMetaPre (n u d : String) : String :=
  "\x7b\n" ++
  (spaces 2 ++ Json.quote "name" ++ ": " ++
    Json.quote ("AutoVibez Presets - " ++ pyTitle n)) ++ ",\n" ++
  (spaces 2 ++ Json.quote "description" ++ ": " ++ Json.quote d) ++ ",\n" ++
  (spaces 2 ++ Json.quote "type" ++ ": " ++ Json.quote "presets") ++ ",\n" ++
  (spaces 2 ++ Json.quote "source_url" ++ ": " ++ Json.quote u) ++ ",\n" ++
  (spaces 2 ++ Json.quote "created" ++ ": ") ++ "\""

/-- The serialized texture metadata up to (and including) the opening quote
of the `created` value. -/
def textureMetaPre (n u d : String) : String :=
  "\x7b\n" ++
  (spaces 2 ++ Json.quote "name" ++ ": " ++
    Json.quote ("AutoVibez Textures - " ++ pyTitle n)) ++ ",\n" ++
  (spaces 2 ++ Json.quote "description" ++ ": " ++ Json.quote d) ++ ",\n" ++
  (spaces 2 ++ Json.quote "type" ++ ": " ++ Json.quote "textures") ++ ",\n" ++
  (spaces 2 ++ Json.quote "source_url" ++ ": " ++ Json.quote u) ++ ",\n" ++
  (spaces 2 ++ Json.quote "created" ++ ": ") ++ "\""

/-- The serialized combined metadata up to (and including) the opening quote
of the `created` value. -/
def combinedMetaPre (pkgs : List String) (n d : String) : String :=
  "\x7b\n" ++
  (spaces 2 ++ Json.quote "name" ++ ": " ++
    Json.quote ("AutoVibez " ++ pyTitle n ++ " - Complete")) ++ ",\n" ++
  (spaces 2 ++ Json.quote "description" ++ ": " ++ Json.quote d) ++ ",\n" ++
  (spaces 2 ++ Json.quote "type" ++ ": " ++ Json.quote n) ++ ",\n" ++
  (spaces 2 ++ Json.quote "packages" ++ ": " ++
    Json.dumpsAt 1 (.arr (pkgs.map Json.str))) ++ ",\n" ++
  (spaces 2 ++ Json.quote "created" ++ ": ") ++ "\""

/-- The serialized metadata from the closing quote of the `created` value to
the end; the same for all three operations. -/
def metaSuf : String :=
  "\"" ++ ",\n" ++
  (spaces 2 ++ Json.quote "version" ++ ": " ++ Json.quote "1.0.0") ++ "\n" ++
  spaces 0 ++ "\x7d"

/-- The preset README up to (and including) `Generated on: `. -/
def presetReadmePre (n u d : String) : String :=
  "# AutoVibez Presets - " ++ pyTitle n ++ "\n\n" ++ d ++
  "\n\n## Installation\n\n1. Extract this ZIP file\n2. Copy the .milk files to your AutoVibez presets directory\n3. Restart AutoVibez\n\n## Directory Locations\n\n**Windows:**\n```\n%APPDATA%\\autovibez\\presets\\\n```\n\n**macOS:**\n```\n~/Library/Application Support/autovibez/presets/\n```\n\n**Linux:**\n```\n~/.local/share/autovibez/presets/\n```\n\n## Source\n\nDownloaded from: " ++
  u ++ "\n\nGenerated on: "

/-- The texture README up to (and including) `Generated on: `. -/
def textureReadmePre (n u d : String) : String :=
  "# AutoVibez Textures - " ++ pyTitle n ++ "\n\n" ++ d ++
  "\n\n## Installation\n\n1. Extract this ZIP file\n2. Copy the texture files to your AutoVibez textures directory\n3. Restart AutoVibez\n\n## Directory Locations\n\n**Windows:**\n```\n%APPDATA%\\autovibez\\textures\\\n```\n\n**macOS:**\n```\n~/Library/Application Support/autovibez/textures/\n```\n\n**Linux:**\n```\n~/.local/share/autovibez/textures/\n```\n\n## Supported Formats\n\n- PNG (recommended)\n- JPG/JPEG\n- BMP\n- TGA\n\n## Source\n\nDownloaded from: " ++
  u ++ "\n\nGenerated on: "

/-- The combined README up to (and including) `Generated on: `. -/
def combinedReadmePre (pkgs : List String) (n d : String) : String :=
  "# AutoVibez " ++ pyTitle n ++ " - Complete Package\n\n" ++ d ++
  "\n\n## Contents\n\nThis package contains:\n" ++
  strJoin "\n" (pkgs.map (fun pkg => "- " ++ pkg)) ++
  "\n\n## Installation\n\n1. Extract this ZIP file\n2. Copy the files to your AutoVibez " ++
  n ++
  " directory\n3. Restart AutoVibez\n\n## Directory Locations\n\n**Windows:**\n```\n%APPDATA%\\autovibez\\" ++
  n ++ "\\\n```\n\n**macOS:**\n```\n~/Library/Application Support/autovibez/" ++
  n ++ "/\n```\n\n**Linux:**\n```\n~/.local/share/autovibez/" ++
  n ++ "/\n```\n\nGenerated on: "

/-- The serialized preset metadata splits around the escaped timestamp. -/
theorem presetMeta_split (n u d ts : String) :
    Json.dumps (presetMetadata n u d ts)
      = presetMetaPre n u d ++ jsonEscapeString ts ++ metaSuf := by
  simp only [Json.dumps, presetMetadata, Json.dumpsAt, Json.dumpsEntries, strJoin,
    Json.quote, presetMetaPre, metaSuf, Nat.reduceAdd, Nat.reduceMul,
    String.append_assoc]

/-- The serialized texture metadata splits around the escaped timestamp. -/
theorem textureMeta_split (n u d ts : String) :
    Json.dumps (textureMetadata n u d ts)
      = textureMetaPre n u d ++ jsonEscapeString ts ++ metaSuf := by
  simp only [Json.dumps, textureMetadata, Json.dumpsAt, Json.dumpsEntries, strJoin,
    Json.quote, textureMetaPre, metaSuf, Nat.reduceAdd, Nat.reduceMul,
    String.append_assoc]

/-- The serialized combined metadata splits around the escaped timestamp. -/
theorem combinedMeta_split (pkgs : List String) (n d ts : String) :
    Json.dumps (combinedMetadata pkgs n d ts)
      = combinedMetaPre pkgs n d ++ jsonEscapeString ts ++ metaSuf := by
  show "\x7b\n" ++ strJoin ",\n"
      [spaces 2 ++ Json.quote "name" ++ ": " ++
         Json.quote ("AutoVibez " ++ pyTitle n ++ " - Complete"),
       spaces 2 ++ Json.quote "description" ++ ": " ++ Json.quote d,
       spaces 2 ++ Json.quote "type" ++ ": " ++ Json.quote n,
       spaces 2 ++ Json.quote "packages" ++ ": " ++
         Json.dumpsAt 1 (.arr (pkgs.map Json.str)),
       spaces 2 ++ Json.quote "created" ++ ": " ++ Json.quote ts,
       spaces 2 ++ Json.quote "version" ++ ": " ++ Json.quote "1.0.0"] ++
      "\n" ++ spaces 0 ++ "\x7d"
    = combinedMetaPre pkgs n d ++ jsonEscapeString ts ++ metaSuf
  simp only [strJoin, Json.quote, combinedMetaPre, metaSuf, String.append_assoc]

/-- Claim C3: for fixed name, source URL and description, every entry of
every archive is a fixed text with the clock reading spliced in at one
place (JSON-escaped in `metadata.json`, verbatim in `README.md`); two runs
differing only in their clock readings therefore produce archives that are
identical except for the embedded creation timestamp. -/
theorem c3_timestamp_only_difference (p : ReleaseAssetPackager) (n u d : String)
    (pkgs : List String) :
    (∀ ts, (create_preset_package p n u d ts).2.entries.map Prod.fst
        = ["metadata.json", "README.md"]) ∧
    (∀ ts, (create_preset_package p n u d ts).2.find "metadata.json"
        = some (presetMetaPre n u d ++ jsonEscapeString ts ++ metaSuf)) ∧
    (∀ ts, (create_preset_package p n u d ts).2.find "README.md"
        = some (presetReadmePre n u d ++ ts ++ "\n")) ∧
    (∀ ts, (create_texture_package p n u d ts).2.entries.map Prod.fst
        = ["metadata.json", "README.md"]) ∧
    (∀ ts, (create_texture_package p n u d ts).2.find "metadata.json"
        = some (textureMetaPre n u d ++ jsonEscapeString ts ++ metaSuf)) ∧
    (∀ ts, (create_texture_package p n u d ts).2.find "README.md"
        = some (textureReadmePre n u d ++ ts ++ "\n")) ∧
    (∀ ts, (create_combined_package p pkgs n d ts).2.entries.map Prod.fst
        = ["metadata.json", "README.md"]) ∧
    (∀ ts, (create_combined_package p pkgs n d ts).2.find "metadata.json"
        = some (combinedMetaPre pkgs n d ++ jsonEscapeString ts ++ metaSuf)) ∧
    (∀ ts, (create_combined_package p pkgs n d ts).2.find "README.md"
        = some (combinedReadmePre pkgs n d ++ ts ++ "\n")) := by
  refine ⟨fun ts => rfl, fun ts => ?_, fun ts => rfl,
          fun ts => rfl, fun ts => ?_, fun ts => rfl,
          fun ts => rfl, fun ts => ?_, fun ts => rfl⟩
  · show some (Json.dumps (presetMetadata n u d ts)) = _
    rw [presetMeta_split]
  · show some (Json.dumps (textureMetadata n u d ts)) = _
    rw [textureMeta_split]
  · show some (Json.dumps (combinedMetadata pkgs n d ts)) = _
    rw [combinedMeta_split]

end AutoVibez
